import Mathlib

/-!
Verification of the Game of Life simulation engine (CaymanFreeman/GameOfLife).

This file gives a shallow embedding of the core of `src/simulation.rs`,
`src/cell.rs` and `src/simulation_builder.rs`, and proves or refutes the
specified properties of the engine.

Modelling conventions:
* Rust `HashSet<Cell>` is modelled as `Finset Cell`.
* Rust `String` seeds are modelled as `List Char` (the source immediately
  converts seeds to `Vec<char>` via `seed.chars().collect()`).
* `u16`/`u128` fields are modelled as `Nat`.  Machine-width effects are kept
  where they matter: the `i as u16` truncation in `generation_from_string`
  is the explicit `% 65536`, and the `u128` subtraction in
  `rollback_generations` that would underflow (a panic in a debug build) is
  modelled by an `Option` result, `none` standing for the panic.
* `Result<T, String>` is `Except String T`; a call of `.unwrap()` on an
  `Err` value (a panic) is again modelled by an `Option` result.
* The `display`/`print`/`window_data` fields are omitted and the builder is
  modelled along its `display == false` path.  The guarded drawing calls of
  `simulate_generations` and `rollback_generations` are skipped on that path
  and never influence the engine state; the one unguarded drawing call, the
  `simulation.draw_generation()` at the end of `build`, unwraps the absent
  window data there and so is a panic, which the model keeps.
-/

namespace GameOfLife

/-- Mirrors `enum CellState` from `src/cell.rs`. -/
inductive CellState where
  | DEAD
  | ALIVE
deriving DecidableEq

/-- Mirrors `struct Cell` from `src/cell.rs`: a state plus `u16` row and
column coordinates.  Equality (the derived `PartialEq`/`Hash`) compares all
three fields, which the derived Lean equality matches. -/
structure Cell where
  state : CellState
  row : Nat
  column : Nat
deriving DecidableEq

/-- Mirrors `ALIVE_CHAR` from `src/cell.rs`. -/
def ALIVE_CHAR : Char := '*'

/-- Mirrors `DEAD_CHAR` from `src/cell.rs`. -/
def DEAD_CHAR : Char := '-'

/-- Mirrors `Cell::is_alive` from `src/cell.rs`. -/
def Cell.is_alive (c : Cell) : Bool := c.state == CellState.ALIVE

/-- Mirrors `enum SurfaceType` from `src/simulation.rs`. -/
inductive SurfaceType where
  | Ball
  | HorizontalLoop
  | VerticalLoop
  | Rectangle
deriving DecidableEq

/-- The `wrapping_vertically` flag assigned by the `match` at the start of
`Simulation::get_alive_neighbors` (`src/simulation.rs` lines 199-216). -/
def wrapping_vertically : SurfaceType → Bool
  | SurfaceType.Ball => true
  | SurfaceType.HorizontalLoop => false
  | SurfaceType.VerticalLoop => true
  | SurfaceType.Rectangle => false

/-- The `wrapping_horizontally` flag assigned by the same `match`. -/
def wrapping_horizontally : SurfaceType → Bool
  | SurfaceType.Ball => true
  | SurfaceType.HorizontalLoop => true
  | SurfaceType.VerticalLoop => false
  | SurfaceType.Rectangle => false

/-- The `bounded_vertically` flag assigned by the same `match`. -/
def bounded_vertically : SurfaceType → Bool
  | SurfaceType.Ball => false
  | SurfaceType.HorizontalLoop => true
  | SurfaceType.VerticalLoop => false
  | SurfaceType.Rectangle => true

/-- The `bounded_horizontally` flag assigned by the same `match`. -/
def bounded_horizontally : SurfaceType → Bool
  | SurfaceType.Ball => false
  | SurfaceType.HorizontalLoop => false
  | SurfaceType.VerticalLoop => true
  | SurfaceType.Rectangle => true

/-- Mirrors `struct Simulation` from `src/simulation.rs` (minus the three
display-related fields, which never influence the engine state). -/
structure Simulation where
  seed : List Char
  surface_type : SurfaceType
  rows : Nat
  columns : Nat
  generation : Finset Cell
  generation_iteration : Nat
  save_history : List (Finset Cell)
  maximum_saves : Nat
deriving DecidableEq

/-- Mirrors `Simulation::get_cell`: build the `ALIVE` cell at the
coordinates and flip its state to `DEAD` when it is not in the current
generation. -/
def Simulation.get_cell (s : Simulation) (row column : Nat) : Cell :=
  let cell : Cell := Cell.mk CellState.ALIVE row column
  if cell ∈ s.generation then cell else Cell.mk CellState.DEAD row column

/-- Mirrors the `top_left_is_alive` block of `Simulation::get_alive_neighbors`
(`src/simulation.rs` lines 223-246).  The Rust binds this as an immediately
invoked closure inside the function; here it is a named definition taking the
captured pieces of `self` and the origin coordinates as arguments.  The same
holds for the other seven `*_is_alive` definitions below.  The edge tests
inline the `on_top_edge`/`on_bottom_edge`/`on_left_edge`/`on_right_edge`
locals of the source.  When `rows = 0` or `columns = 0` the Rust
`self.rows - 1` would underflow `u16` (a panic); no grid cell exists then and
every theorem below assumes positive dimensions. -/
def Simulation.top_left_is_alive (s : Simulation) (origin_row origin_column : Nat) : Bool :=
  if (origin_row == 0) && bounded_vertically s.surface_type then false
  else if (origin_column == 0) && bounded_horizontally s.surface_type then false
  else
    let neighbor_row : Nat :=
      if (origin_row == 0) && wrapping_vertically s.surface_type then s.rows - 1
      else origin_row - 1
    let neighbor_column : Nat :=
      if (origin_column == 0) && wrapping_horizontally s.surface_type then s.columns - 1
      else origin_column - 1
    (s.get_cell neighbor_row neighbor_column).is_alive

/-- Mirrors the `top_center_is_alive` block (lines 247-262). -/
def Simulation.top_center_is_alive (s : Simulation) (origin_row origin_column : Nat) : Bool :=
  if (origin_row == 0) && bounded_vertically s.surface_type then false
  else
    let neighbor_row : Nat :=
      if (origin_row == 0) && wrapping_vertically s.surface_type then s.rows - 1
      else origin_row - 1
    (s.get_cell neighbor_row origin_column).is_alive

/-- Mirrors the `top_right_is_alive` block (lines 263-286). -/
def Simulation.top_right_is_alive (s : Simulation) (origin_row origin_column : Nat) : Bool :=
  if (origin_row == 0) && bounded_vertically s.surface_type then false
  else if (origin_column == s.columns - 1) && bounded_horizontally s.surface_type then false
  else
    let neighbor_row : Nat :=
      if (origin_row == 0) && wrapping_vertically s.surface_type then s.rows - 1
      else origin_row - 1
    let neighbor_column : Nat :=
      if (origin_column == s.columns - 1) && wrapping_horizontally s.surface_type then 0
      else origin_column + 1
    (s.get_cell neighbor_row neighbor_column).is_alive

/-- Mirrors the `middle_left_is_alive` block (lines 287-302). -/
def Simulation.middle_left_is_alive (s : Simulation) (origin_row origin_column : Nat) : Bool :=
  if (origin_column == 0) && bounded_horizontally s.surface_type then false
  else
    let neighbor_column : Nat :=
      if (origin_column == 0) && wrapping_horizontally s.surface_type then s.columns - 1
      else origin_column - 1
    (s.get_cell origin_row neighbor_column).is_alive

/-- Mirrors the `middle_right_is_alive` block (lines 303-318). -/
def Simulation.middle_right_is_alive (s : Simulation) (origin_row origin_column : Nat) : Bool :=
  if (origin_column == s.columns - 1) && bounded_horizontally s.surface_type then false
  else
    let neighbor_column : Nat :=
      if (origin_column == s.columns - 1) && wrapping_horizontally s.surface_type then 0
      else origin_column + 1
    (s.get_cell origin_row neighbor_column).is_alive

/-- Mirrors the `bottom_left_is_alive` block (lines 319-342); note the source
tests the left edge before the bottom edge in this block. -/
def Simulation.bottom_left_is_alive (s : Simulation) (origin_row origin_column : Nat) : Bool :=
  if (origin_column == 0) && bounded_horizontally s.surface_type then false
  else if (origin_row == s.rows - 1) && bounded_vertically s.surface_type then false
  else
    let neighbor_row : Nat :=
      if (origin_row == s.rows - 1) && wrapping_vertically s.surface_type then 0
      else origin_row + 1
    let neighbor_column : Nat :=
      if (origin_column == 0) && wrapping_horizontally s.surface_type then s.columns - 1
      else origin_column - 1
    (s.get_cell neighbor_row neighbor_column).is_alive

/-- Mirrors the `bottom_center_is_alive` block (lines 343-358). -/
def Simulation.bottom_center_is_alive (s : Simulation) (origin_row origin_column : Nat) : Bool :=
  if (origin_row == s.rows - 1) && bounded_vertically s.surface_type then false
  else
    let neighbor_row : Nat :=
      if (origin_row == s.rows - 1) && wrapping_vertically s.surface_type then 0
      else origin_row + 1
    (s.get_cell neighbor_row origin_column).is_alive

/-- Mirrors the `bottom_right_is_alive` block (lines 359-382). -/
def Simulation.bottom_right_is_alive (s : Simulation) (origin_row origin_column : Nat) : Bool :=
  if (origin_row == s.rows - 1) && bounded_vertically s.surface_type then false
  else if (origin_column == s.columns - 1) && bounded_horizontally s.surface_type then false
  else
    let neighbor_row : Nat :=
      if (origin_row == s.rows - 1) && wrapping_vertically s.surface_type then 0
      else origin_row + 1
    let neighbor_column : Nat :=
      if (origin_column == s.columns - 1) && wrapping_horizontally s.surface_type then 0
      else origin_column + 1
    (s.get_cell neighbor_row neighbor_column).is_alive

/-- Mirrors `Simulation::get_alive_neighbors` (lines 192-410): the eight
indicator booleans followed by the sequential `count` increments. -/
def Simulation.get_alive_neighbors (s : Simulation) (cell : Cell) : Nat :=
  let origin_row : Nat := cell.row
  let origin_column : Nat := cell.column
  let count : Nat := 0
  let count := if s.top_left_is_alive origin_row origin_column then count + 1 else count
  let count := if s.top_center_is_alive origin_row origin_column then count + 1 else count
  let count := if s.top_right_is_alive origin_row origin_column then count + 1 else count
  let count := if s.middle_left_is_alive origin_row origin_column then count + 1 else count
  let count := if s.middle_right_is_alive origin_row origin_column then count + 1 else count
  let count := if s.bottom_left_is_alive origin_row origin_column then count + 1 else count
  let count := if s.bottom_center_is_alive origin_row origin_column then count + 1 else count
  let count := if s.bottom_right_is_alive origin_row origin_column then count + 1 else count
  count

/-- The body of the inner loop of `Simulation::simulate_generations`
(lines 514-526): examine one grid cell against `self.generation` (unchanged
during the whole pass) and update the `new_generation` accumulator. -/
def Simulation.stepCell (s : Simulation) (new_generation : Finset Cell) (row column : Nat) :
    Finset Cell :=
  let cell : Cell := s.get_cell row column
  let alive_neighbors : Nat := s.get_alive_neighbors cell
  let cell_alive : Bool := cell.is_alive
  if cell_alive then
    if alive_neighbors < 2 ∨ alive_neighbors > 3 then new_generation.erase cell
    else new_generation
  else
    if alive_neighbors = 3 then insert (Cell.mk CellState.ALIVE row column) new_generation
    else new_generation

/-- The row-major list of grid coordinates visited by the nested `while`
loops of `Simulation::simulate_generations` (lines 510-530). -/
def gridCells (rows columns : Nat) : List (Nat × Nat) :=
  (List.range rows).flatMap (fun row => (List.range columns).map (fun column => (row, column)))

/-- One generation step of `Simulation::simulate_generations`: fold the
inner-loop body over the grid cells in visiting order, starting from the
clone of the current generation (line 509). -/
def Simulation.stepGeneration (s : Simulation) : Finset Cell :=
  (gridCells s.rows s.columns).foldl
    (fun new_generation rc => s.stepCell new_generation rc.1 rc.2) s.generation

/-- Mirrors `Simulation::save_generation` (lines 428-433): drop the oldest
entry when the history is at capacity, then append the current generation.
(When `maximum_saves = 0` and the history is empty the Rust `remove(0)`
panics; no theorem below enters that corner.) -/
def Simulation.save_generation (s : Simulation) : Simulation :=
  let history : List (Finset Cell) :=
    if s.save_history.length = s.maximum_saves then s.save_history.drop 1 else s.save_history
  { s with save_history := history ++ [s.generation] }

/-- The `for _ in 0..iterations` loop of `Simulation::simulate_generations`
(lines 508-533): repeatedly commit the freshly built generation and bump the
iteration counter. -/
def Simulation.simulateLoop : Simulation → Nat → Simulation
  | s, 0 => s
  | s, Nat.succ k =>
    Simulation.simulateLoop
      { s with generation := s.stepGeneration,
               generation_iteration := s.generation_iteration + 1 } k

/-- Mirrors `Simulation::simulate_generations` (lines 503-540): early return
on `iterations == 0`, a single `save_generation` before the batch, then the
step loop.  Drawing and printing are side effects outside the state. -/
def Simulation.simulate_generations (s : Simulation) (iterations : Nat) : Simulation :=
  if iterations = 0 then s else (s.save_generation).simulateLoop iterations

/-- Mirrors `Simulation::simulate_generation`. -/
def Simulation.simulate_generation (s : Simulation) : Simulation :=
  s.simulate_generations 1

/-- The `for _ in 0..iterations` loop of `Simulation::rollback_generations`
(lines 453-460): pop the newest saved generation and decrement the `u128`
iteration counter; `none` models the debug-build underflow panic of
`generation_iteration -= 1` when the counter is already `0`. -/
def Simulation.rollbackLoop : Simulation → Nat → Option Simulation
  | s, 0 => some s
  | s, Nat.succ k =>
    match s.save_history.getLast? with
    | some previous_generation =>
      if s.generation_iteration = 0 then none
      else
        Simulation.rollbackLoop
          { s with generation := previous_generation,
                   save_history := s.save_history.dropLast,
                   generation_iteration := s.generation_iteration - 1 } k
    | none => some s

/-- Mirrors `Simulation::rollback_generations` (lines 449-464). -/
def Simulation.rollback_generations (s : Simulation) (iterations : Nat) : Option Simulation :=
  if iterations = 0 then some s else s.rollbackLoop iterations

/-- The loop of `generation_from_string` (lines 660-677), carried over the
remaining characters with the running index `i`; `index = i % 65536` is the
`i as u16` truncation of the source. -/
def generationFromChars (columns : Nat) :
    List Char → Nat → Finset Cell → Except String (Finset Cell)
  | [], _, generation => Except.ok generation
  | value :: rest, i, generation =>
    let index : Nat := i % 65536
    let row_index : Nat := index / columns
    let column_index : Nat := index % columns
    if value = ALIVE_CHAR then
      generationFromChars columns rest (i + 1)
        (insert (Cell.mk CellState.ALIVE row_index column_index) generation)
    else if value = DEAD_CHAR then
      generationFromChars columns rest (i + 1) generation
    else
      Except.error "Unexpected seed character, seeds must only contain the alive or dead character"

/-- Mirrors `generation_from_string` (lines 657-679).  (The Rust `u16`
division `index / columns` panics when `columns = 0`; every theorem below
assumes `0 < columns`.) -/
def generation_from_string (seed : List Char) (columns : Nat) : Except String (Finset Cell) :=
  generationFromChars columns seed 0 ∅

/-- Mirrors `string_from_generation` (lines 704-711): a row-major character
list, position `i` alive exactly when some stored cell writes to it.  The
source iterates the set and assigns `ALIVE_CHAR` at `cell.row * columns +
cell.column`; distinct in-bounds cells write distinct positions, so the
result is the indicator of the written-index image.  (A stored cell whose
index falls outside `rows * columns` makes the Rust indexing panic; the
round-trip theorems assume in-bounds cells.) -/
def string_from_generation (generation : Finset Cell) (rows columns : Nat) : List Char :=
  (List.range (rows * columns)).map (fun i =>
    if i ∈ generation.image (fun cell => cell.row * columns + cell.column) then ALIVE_CHAR
    else DEAD_CHAR)

/-- Mirrors `Simulation::reset` (lines 581-585); `none` models the panic of
the `.unwrap()` on `generation_from_string` when the stored seed contains an
invalid character. -/
def Simulation.reset (s : Simulation) : Option Simulation :=
  match generation_from_string s.seed s.columns with
  | Except.ok g => some { s with generation := g, generation_iteration := 0 }
  | Except.error _ => none

/-- Mirrors `Simulation::reset_to` (lines 591-595); `none` models the panic
of the `.unwrap()` on an invalid seed character. -/
def Simulation.reset_to (s : Simulation) (seed : List Char) : Option Simulation :=
  match generation_from_string seed s.columns with
  | Except.ok g =>
    some { s with generation := g, seed := seed, generation_iteration := 0 }
  | Except.error _ => none

/-- Mirrors `Simulation::reset_to_rand` (lines 602-607); the output of
`random_seed(self.rows, self.columns)` is taken as the parameter
`randomSeed`. -/
def Simulation.reset_to_rand (s : Simulation) (randomSeed : List Char) : Option Simulation :=
  match generation_from_string randomSeed s.columns with
  | Except.ok g =>
    some { s with generation := g, seed := randomSeed, generation_iteration := 0 }
  | Except.error _ => none

/-- Mirrors `Simulation::is_periodic` (lines 615-618).  The Rust expression
`self.save_history.len() >= period && self.generation ==
self.save_history[self.save_history.len() - period]` short-circuits, and the
indexing panics when the index equals the length; `none` models that
panic. -/
def Simulation.is_periodic (s : Simulation) (period : Nat) : Option Bool :=
  if s.save_history.length ≥ period then
    match s.save_history[s.save_history.length - period]? with
    | some entry => some (decide (s.generation = entry))
    | none => none
  else some false

/-- Mirrors `Simulation::is_still` (lines 610-612). -/
def Simulation.is_still (s : Simulation) : Option Bool :=
  s.is_periodic 1

/-- Mirrors the parameter-resolution core of `SimulationBuilder`
(`src/simulation_builder.rs`): only the fields consumed by `build` along the
`display == false` path. -/
structure SimulationBuilder where
  rows : Option Nat
  columns : Option Nat
  surface_type : SurfaceType
  seed : Option (List Char)
  maximum_saves : Nat
deriving DecidableEq

/-- Mirrors `Simulation::draw_generation` (`src/simulation_window.rs` lines
156-160) on the modelled `display == false` path: the first statement of
`draw_alive_cells` (line 105) is `self.window_data.as_mut().unwrap()`, and
`window_data` is `None` when no display was configured, so the call always
panics there (`none`). -/
def Simulation.draw_generation (_s : Simulation) : Option Unit := none

/-- The tail of `SimulationBuilder::build` (lines 425-439) once rows, columns
and the seed are resolved: decode the seed — the source calls `.unwrap()` on
the decode result, so an invalid seed character is a panic (`none`) —
assemble the simulation with an empty history and iteration `0`, then call
`simulation.draw_generation()` unconditionally (line 438), which on the
modelled `display == false` path panics, so `Ok(simulation)` is never
reached. -/
def buildWith (b : SimulationBuilder) (rows columns : Nat) (seed : List Char) :
    Option (Except String Simulation) :=
  match generation_from_string seed columns with
  | Except.ok g =>
    let simulation : Simulation :=
      { seed := seed, surface_type := b.surface_type, rows := rows, columns := columns,
        generation := g, generation_iteration := 0, save_history := [],
        maximum_saves := b.maximum_saves }
    match simulation.draw_generation with
    | some _ => some (Except.ok simulation)
    | none => none
  | Except.error _ => none

/-- Mirrors the `match (self.rows, self.columns, self.seed)` of
`SimulationBuilder::build` (lines 308-358).  `seed.length % 65536` is the
`seed.len() as u16` cast; the `u16` remainder by a zero divisor is a panic
(`none`).  The seed-only case uses the `f32` square root of the source,
which agrees with `Nat.sqrt` on every length a `u16` grid can have.  When no
seed is supplied, `randomSeed` stands for `random_seed(rows, columns)`. -/
def SimulationBuilder.build (b : SimulationBuilder) (randomSeed : List Char) :
    Option (Except String Simulation) :=
  match b.rows, b.columns, b.seed with
  | some rows, some columns, some seed => buildWith b rows columns seed
  | some rows, some columns, none => buildWith b rows columns randomSeed
  | some rows, none, some seed =>
    let seed_length : Nat := seed.length % 65536
    if rows = 0 then none
    else if seed_length % rows = 0 then buildWith b rows (seed_length / rows) seed
    else some (Except.error "The provided seed must be divisible by the number of rows")
  | none, some columns, some seed =>
    let seed_length : Nat := seed.length % 65536
    if columns = 0 then none
    else if seed_length % columns = 0 then buildWith b (seed_length / columns) columns seed
    else some (Except.error "The provided seed must be divisible by the number of columns")
  | none, none, some seed =>
    let sqrt : Nat := Nat.sqrt seed.length
    if sqrt * sqrt = seed.length then buildWith b sqrt sqrt seed
    else some (Except.error "The provided seed must be of a square size")
  | some _, none, none =>
    some (Except.error "Both rows and columns must be provided if no seed is provided")
  | none, some _, none =>
    some (Except.error "Both rows and columns must be provided if no seed is provided")
  | none, none, none =>
    some (Except.error "One of the following must be provided: rows, columns, or seed")

/-- `true` exactly when a (modelled) build outcome is a returned error
value, as opposed to a success or a panic. -/
def isErrorResult : Option (Except String Simulation) → Bool
  | some (Except.error _) => true
  | _ => false

/-- The spec's wrap table, vertical axis: Ball and VerticalLoop wrap
vertically. -/
def spec_wraps_vertically : SurfaceType → Bool
  | SurfaceType.Ball => true
  | SurfaceType.HorizontalLoop => false
  | SurfaceType.VerticalLoop => true
  | SurfaceType.Rectangle => false

/-- The spec's wrap table, horizontal axis: Ball and HorizontalLoop wrap
horizontally. -/
def spec_wraps_horizontally : SurfaceType → Bool
  | SurfaceType.Ball => true
  | SurfaceType.HorizontalLoop => true
  | SurfaceType.VerticalLoop => false
  | SurfaceType.Rectangle => false

/-- The spec's per-axis coordinate resolution: a wrapping axis maps the
coordinate by true mathematical modulo into the axis range; a bounded axis
rejects out-of-range coordinates (the resolved cell is dead). -/
def resolveAxis (wraps : Bool) (len : Nat) (coord : Int) : Option Nat :=
  if wraps then some (coord % (len : Int)).toNat
  else if 0 ≤ coord ∧ coord < (len : Int) then some coord.toNat else none

/-- The spec's `resolve_cell` aliveness: both axes must resolve, and the
resolved coordinate must be present in the alive-cell set. -/
def spec_resolve_alive (s : Simulation) (row column : Int) : Bool :=
  match resolveAxis (spec_wraps_vertically s.surface_type) s.rows row,
        resolveAxis (spec_wraps_horizontally s.surface_type) s.columns column with
  | some r, some c => decide (Cell.mk CellState.ALIVE r c ∈ s.generation)
  | _, _ => false

/-- The 8 Moore-neighborhood offsets `(-1,-1)` through `(1,1)` excluding
`(0,0)`. -/
def mooreOffsets : List (Int × Int) :=
  [(-1, -1), (-1, 0), (-1, 1), (0, -1), (0, 1), (1, -1), (1, 0), (1, 1)]

/-- The spec's `count_alive_neighbors`: how many of the 8 offsets resolve to
an alive cell. -/
def spec_count_alive_neighbors (s : Simulation) (row column : Nat) : Nat :=
  mooreOffsets.countP
    (fun d => spec_resolve_alive s ((row : Int) + d.1) ((column : Int) + d.2))

/-- The Game of Life rule read off the source's step loop: a living grid
cell survives exactly with 2 or 3 alive neighbors; a dead one is born
exactly with 3. -/
def ruleNext (s : Simulation) (row column : Nat) : Bool :=
  let cell : Cell := s.get_cell row column
  let alive_neighbors : Nat := s.get_alive_neighbors cell
  if cell.is_alive then decide (2 ≤ alive_neighbors ∧ alive_neighbors ≤ 3)
  else decide (alive_neighbors = 3)

/-- Every cell of a generation set lies inside the `rows × columns` grid. -/
def InBounds (rows columns : Nat) (g : Finset Cell) : Prop :=
  ∀ c ∈ g, c.row < rows ∧ c.column < columns

/-- The whole-state bounds invariant: the live generation and every saved
generation lie inside the grid. -/
def SimInv (s : Simulation) : Prop :=
  InBounds s.rows s.columns s.generation ∧
    ∀ g ∈ s.save_history, InBounds s.rows s.columns g

/-! Concrete states used by witnesses and counterexamples. -/

/-- A 1×1 Rectangle simulation whose single saved generation equals the live
(empty) generation. -/
def periodicSample : Simulation :=
  Simulation.mk ['-'] SurfaceType.Rectangle 1 1 ∅ 1 [∅] 100

/-- A 1×1 Ball simulation with its single cell alive. -/
def oneByOneBall : Simulation :=
  Simulation.mk ['*'] SurfaceType.Ball 1 1 {Cell.mk CellState.ALIVE 0 0} 0 [] 100

/-- A 1×1 Rectangle simulation with its single cell alive. -/
def oneByOneRect : Simulation :=
  Simulation.mk ['*'] SurfaceType.Rectangle 1 1 {Cell.mk CellState.ALIVE 0 0} 0 [] 100

/-- A 1×1 Rectangle simulation with no alive cell, an empty history, and
iteration 0. -/
def stillStart : Simulation :=
  Simulation.mk ['-'] SurfaceType.Rectangle 1 1 ∅ 0 [] 100

/-- A builder supplying rows = 2, columns = 2 and a seed of length 3:
`rows * columns` differs from the seed length. -/
def mismatchedBuilder : SimulationBuilder :=
  SimulationBuilder.mk (some 2) (some 2) SurfaceType.Rectangle (some ['*', '*', '*']) 100

/-- A builder supplying rows, columns, and a seed containing a character
outside the alive/dead alphabet. -/
def invalidCharBuilder : SimulationBuilder :=
  SimulationBuilder.mk (some 2) (some 2) SurfaceType.Rectangle (some ['1']) 100

/-- A 1×1 Rectangle simulation with one alive cell, used to drive the
advance/rollback scenarios. -/
def rollbackDemoStart : Simulation :=
  Simulation.mk ['*'] SurfaceType.Rectangle 1 1 {Cell.mk CellState.ALIVE 0 0} 0 [] 100

/-- A 3×3 Ball simulation with one alive cell in the far corner. -/
def wrapSample : Simulation :=
  Simulation.mk [] SurfaceType.Ball 3 3 {Cell.mk CellState.ALIVE 2 2} 0 [] 100

/-- A 5×5 Rectangle simulation holding a horizontal blinker. -/
def blinkerSim : Simulation :=
  Simulation.mk [] SurfaceType.Rectangle 5 5
    {Cell.mk CellState.ALIVE 2 1, Cell.mk CellState.ALIVE 2 2, Cell.mk CellState.ALIVE 2 3}
    0 [] 100

/-! Shared helper lemmas about the embedded definitions. -/

theorem get_cell_is_alive (s : Simulation) (row column : Nat) :
    (s.get_cell row column).is_alive =
      decide (Cell.mk CellState.ALIVE row column ∈ s.generation) := by
  by_cases h : Cell.mk CellState.ALIVE row column ∈ s.generation <;>
    simp [Simulation.get_cell, Cell.is_alive, h]

theorem bounded_vertically_not_wrapping (st : SurfaceType) :
    bounded_vertically st = !wrapping_vertically st := by
  cases st <;> rfl

theorem bounded_horizontally_not_wrapping (st : SurfaceType) :
    bounded_horizontally st = !wrapping_horizontally st := by
  cases st <;> rfl

theorem spec_wraps_vertically_eq_code (st : SurfaceType) :
    spec_wraps_vertically st = wrapping_vertically st := by
  cases st <;> rfl

theorem spec_wraps_horizontally_eq_code (st : SurfaceType) :
    spec_wraps_horizontally st = wrapping_horizontally st := by
  cases st <;> rfl

theorem simulate_one_generation (s : Simulation) :
    ((s.simulate_generations 1).generation = s.stepGeneration) ∧
    ((s.simulate_generations 1).save_history =
      (if s.save_history.length = s.maximum_saves then s.save_history.drop 1
       else s.save_history) ++ [s.generation]) ∧
    ((s.simulate_generations 1).generation_iteration = s.generation_iteration + 1) := by
  refine ⟨?_, ?_, ?_⟩ <;> rfl

/-! Claim C10. -/

/-- **C10.** `is_periodic` is total for every `period ≥ 1`: it returns
`false` when the history is shorter than `period` and otherwise compares
the current generation against the entry `period` steps back; for
`period = 0` the `length >= 0` guard always holds and the accessed index
equals the history length, so the indexing panics (modelled as `none`) for
every simulation state. -/
theorem c10_is_periodic_totality (s : Simulation) (period : Nat) :
    (0 < period → s.save_history.length < period → s.is_periodic period = some false) ∧
    (0 < period → period ≤ s.save_history.length →
      s.is_periodic period =
        some (decide (s.generation = s.save_history.getD (s.save_history.length - period) ∅))) ∧
    s.is_periodic 0 = none := by
  refine ⟨fun hp hlen => ?_, fun hp hlen => ?_, ?_⟩
  · unfold Simulation.is_periodic
    rw [if_neg (by omega)]
  · unfold Simulation.is_periodic
    rw [if_pos hlen]
    have hidx : s.save_history.length - period < s.save_history.length := by omega
    rw [List.getElem?_eq_getElem hidx]
    rw [List.getD_eq_getElem?_getD, List.getElem?_eq_getElem hidx]
    rfl
  · unfold Simulation.is_periodic
    rw [if_pos (Nat.zero_le _)]
    rw [Nat.sub_zero, List.getElem?_eq_none (Nat.le_refl _)]

/-- Witness for C10 at a history of length 1. -/
theorem c10_is_periodic_totality_witness :
    periodicSample.is_periodic 2 = some false ∧
    periodicSample.is_periodic 1 = some true ∧
    periodicSample.is_periodic 0 = none := by
  refine ⟨(c10_is_periodic_totality periodicSample 2).1 (by decide) (by decide), ?_,
    (c10_is_periodic_totality periodicSample 0).2.2⟩
  have h := (c10_is_periodic_totality periodicSample 1).2.1 (by decide) (by decide)
  rw [h]
  decide

/-! Claim C9. -/

/-- **C9 counterexample.** On a 1×1 Ball grid with the single cell alive,
`get_alive_neighbors` returns 8, not 0: each of the eight wrapped offsets
maps back to the cell's own coordinate and its aliveness is counted. -/
theorem c9_counterexample :
    oneByOneBall.get_alive_neighbors (Cell.mk CellState.ALIVE 0 0) = 8 ∧
    oneByOneBall.get_alive_neighbors (Cell.mk CellState.ALIVE 0 0) ≠ 0 := by
  decide

/-- **C9 (amended).** On a 1×1 grid the single cell's alive-neighbor count
is 0 on a Rectangle surface; on a Ball surface it is 8 when the cell itself
is alive and 0 otherwise, because every wrapped offset resolves back to the
cell's own coordinate and the implementation does not exclude self. -/
theorem c9_one_by_one_neighbors (s : Simulation) (st : CellState)
    (hr : s.rows = 1) (hc : s.columns = 1) :
    (s.surface_type = SurfaceType.Rectangle → s.get_alive_neighbors (Cell.mk st 0 0) = 0) ∧
    (s.surface_type = SurfaceType.Ball →
      s.get_alive_neighbors (Cell.mk st 0 0) =
        if Cell.mk CellState.ALIVE 0 0 ∈ s.generation then 8 else 0) := by
  constructor <;> intro hst <;>
    by_cases h : Cell.mk CellState.ALIVE 0 0 ∈ s.generation <;>
      simp [Simulation.get_alive_neighbors, Simulation.top_left_is_alive,
        Simulation.top_center_is_alive, Simulation.top_right_is_alive,
        Simulation.middle_left_is_alive, Simulation.middle_right_is_alive,
        Simulation.bottom_left_is_alive, Simulation.bottom_center_is_alive,
        Simulation.bottom_right_is_alive, hst, hr, hc, get_cell_is_alive, h,
        bounded_vertically, bounded_horizontally, wrapping_vertically, wrapping_horizontally]

/-- Witness for C9 (amended) on concrete 1×1 simulations. -/
theorem c9_one_by_one_neighbors_witness :
    oneByOneRect.get_alive_neighbors (Cell.mk CellState.ALIVE 0 0) = 0 ∧
    oneByOneBall.get_alive_neighbors (Cell.mk CellState.ALIVE 0 0) =
      (if Cell.mk CellState.ALIVE 0 0 ∈ oneByOneBall.generation then 8 else 0) :=
  ⟨(c9_one_by_one_neighbors oneByOneRect CellState.ALIVE rfl rfl).1 rfl,
   (c9_one_by_one_neighbors oneByOneBall CellState.ALIVE rfl rfl).2 rfl⟩

/-! Claim C4. -/

/-- **C4 counterexample.** A still-life state with an empty save history:
one further step leaves the generation unchanged, yet `is_still()` returns
false (it compares against the most recent history entry, which does not
exist, rather than against the next step). -/
theorem c4_counterexample :
    (stillStart.simulate_generations 1).generation = stillStart.generation ∧
    stillStart.is_still = some false := by
  decide

/-- **C4 (amended).** `is_still()` is true iff the save history is nonempty
and the current generation equals its most recent entry; consequently,
immediately after `simulate_generation()` (which first saves the pre-step
generation), `is_still()` is true iff that step left the generation
unchanged.  In general `is_still()` on an arbitrary state does not consult
the next step, so the claimed equivalence only holds right after a step. -/
theorem c4_is_still_after_step (s : Simulation) :
    (s.simulate_generations 1).is_still =
      some (decide ((s.simulate_generations 1).generation = s.generation)) := by
  obtain ⟨-, hh, -⟩ := simulate_one_generation s
  unfold Simulation.is_still Simulation.is_periodic
  rw [hh]
  generalize (if s.save_history.length = s.maximum_saves then s.save_history.drop 1
    else s.save_history) = d
  have h1 : (d ++ [s.generation]).length ≥ 1 := by simp
  rw [if_pos h1]
  have h2 : (d ++ [s.generation]).length - 1 = d.length := by simp
  rw [h2, List.getElem?_concat_length]

/-! Claim C5. -/

/-- **C5 counterexample.** Building with rows = 2, columns = 2 and a seed of
length 3 does not return a `ConfigurationError`: the all-three-supplied
branch performs no length validation and the build then panics in the
unconditional `draw_generation()` call (no value is returned at all on the
modelled `display == false` path); building with a seed containing `'1'`
panics through `.unwrap()`.  Neither malformed input yields a returned
error value. -/
theorem c5_counterexample :
    isErrorResult (mismatchedBuilder.build []) = false ∧
    (mismatchedBuilder.build []).isSome = false ∧
    (invalidCharBuilder.build []).isSome = false := by
  decide

/-- **C5 (amended).** When rows, columns, and a seed are all supplied,
`build` performs no validation of `rows * columns` against the seed length —
no `ConfigurationError` is ever returned from that branch — and on the
modelled `display == false` path it never returns at all: a seed character
outside the alive/dead alphabet panics through the `.unwrap()` on the
decode result, and even a seed that decodes panics in the unconditional
`draw_generation()` call at the end of `build`, which unwraps the absent
window data.  `reset_to` likewise panics on an invalid seed character
instead of returning an error. -/
theorem c5_build_and_reset_behavior (b : SimulationBuilder) (rows columns : Nat)
    (seed randomSeed : List Char) (hr : b.rows = some rows) (hc : b.columns = some columns)
    (hs : b.seed = some seed) :
    b.build randomSeed = none ∧
    isErrorResult (b.build randomSeed) = false ∧
    (∀ (s : Simulation) (e : String), generation_from_string seed s.columns = Except.error e →
      s.reset_to seed = none) := by
  have hb : b.build randomSeed = none := by
    simp only [SimulationBuilder.build, hr, hc, hs]
    unfold buildWith
    cases hdec : generation_from_string seed columns with
    | ok g => rfl
    | error e => rfl
  refine ⟨hb, ?_, fun s e he => ?_⟩
  · rw [hb]
    rfl
  · simp only [Simulation.reset_to, he]

/-- Witness for C5 (amended) on the concrete builders. -/
theorem c5_build_and_reset_behavior_witness :
    mismatchedBuilder.build [] = none ∧ invalidCharBuilder.build [] = none :=
  ⟨(c5_build_and_reset_behavior mismatchedBuilder 2 2 ['*', '*', '*'] [] rfl rfl rfl).1,
   (c5_build_and_reset_behavior invalidCharBuilder 2 2 ['1'] [] rfl rfl rfl).1⟩

/-! Claim C7. -/

/-- **C7 (code bug).** `reset` sets `generation_iteration` to 0 but keeps
the save history, so a following `rollback_generations(1)` pops an entry
while the counter is 0 and the `u128` decrement underflows (a panic in a
debug build, modelled as `none`): the claimed "never goes negative"
invariant fails on this sequence.  The first conjunct shows the failing
input really reaches the pop with iteration 0 and a nonempty history. -/
theorem c7_reset_then_rollback_underflows :
    ((stillStart.simulate_generations 1).reset).map
        (fun t => (t.generation_iteration, t.save_history.length)) = some (0, 1) ∧
    Option.bind ((stillStart.simulate_generations 1).reset)
        (fun t => t.rollback_generations 1) = none := by
  constructor
  · rfl
  · rfl

/-! Claim C3 counterexample. -/

/-- **C3 counterexample.** Pre-advance state: `rollbackDemoStart` advanced
once (generation ∅, history `[{(0,0)}]`, iteration 1; `maximum_saves` 100,
so no eviction anywhere).  Advancing 2 generations saves only one snapshot,
but rolling back 2 pops twice: the restored generation is `{(0,0)}`, the
state *two* advances back, not the pre-advance generation ∅. -/
theorem c3_counterexample :
    (((rollbackDemoStart.simulate_generations 1).simulate_generations 2).rollback_generations
        2).map
        (fun t => decide (t.generation = (rollbackDemoStart.simulate_generations 1).generation)) =
      some false ∧
    (((rollbackDemoStart.simulate_generations 1).simulate_generations 2).rollback_generations
        2).map
        (fun t => decide (t.generation = rollbackDemoStart.generation)) = some true := by
  decide

/-! Loop lemmas for the advance and rollback loops. -/

theorem simulateLoop_save_history (s : Simulation) (k : Nat) :
    (s.simulateLoop k).save_history = s.save_history := by
  induction k generalizing s with
  | zero => rfl
  | succ k ih =>
    rw [Simulation.simulateLoop]
    exact ih _

theorem simulateLoop_iteration (s : Simulation) (k : Nat) :
    (s.simulateLoop k).generation_iteration = s.generation_iteration + k := by
  induction k generalizing s with
  | zero => rfl
  | succ k ih =>
    rw [Simulation.simulateLoop, ih]
    dsimp only
    omega

theorem rollbackLoop_empty_history (s : Simulation) (k : Nat) (h : s.save_history = []) :
    s.rollbackLoop k = some s := by
  cases k with
  | zero => rfl
  | succ k =>
    rw [Simulation.rollbackLoop, h]
    rfl

theorem rollbackLoop_concat (s : Simulation) (k : Nat) (d : List (Finset Cell)) (g : Finset Cell)
    (hh : s.save_history = d ++ [g]) (hi : s.generation_iteration ≠ 0) :
    s.rollbackLoop (k + 1) =
      Simulation.rollbackLoop
        { s with generation := g, save_history := d,
                 generation_iteration := s.generation_iteration - 1 } k := by
  rw [Simulation.rollbackLoop, hh, List.getLast?_concat]
  dsimp only
  rw [if_neg hi, List.dropLast_concat]

/-! Claim C3, amended form. -/

/-- **C3 (amended).** `simulate_generations(n)` saves only one pre-batch
snapshot, so `rollback_generations(n)` restores the pre-advance generation
exactly when it cannot pop past that snapshot: when the save history was
empty before the advance, or when `n = 1` (in both cases with
`maximum_saves ≥ 1`: that hypothesis keeps the advance away from the
`remove(0)`-on-empty corner of `save_generation`, where the Rust panics
while the total model here proceeds).  The counterexample shows the
original claim fails for `n = 2` over a nonempty prior history. -/
theorem c3_advance_then_rollback (s : Simulation) (n : Nat) (_hmax : 1 ≤ s.maximum_saves)
    (h : s.save_history = [] ∨ n = 1) :
    ∃ t, (s.simulate_generations n).rollback_generations n = some t ∧
      t.generation = s.generation := by
  rcases Nat.eq_zero_or_pos n with hn | hn
  · subst hn
    exact ⟨s, rfl, rfl⟩
  · obtain ⟨k, hk⟩ : ∃ k, n = k + 1 := ⟨n - 1, by omega⟩
    have hsim : s.simulate_generations n = (s.save_generation).simulateLoop n := by
      unfold Simulation.simulate_generations
      rw [if_neg (by omega)]
    have hhist : (s.simulate_generations n).save_history =
        (if s.save_history.length = s.maximum_saves then s.save_history.drop 1
          else s.save_history) ++ [s.generation] := by
      rw [hsim, simulateLoop_save_history]
      rfl
    have hiter : (s.simulate_generations n).generation_iteration =
        s.generation_iteration + n := by
      rw [hsim, simulateLoop_iteration]
      rfl
    unfold Simulation.rollback_generations
    rw [if_neg (by omega)]
    rw [hk] at hhist hiter ⊢
    rw [rollbackLoop_concat _ k _ _ hhist (by omega)]
    rcases h with hempty | hone
    · have hd : (if s.save_history.length = s.maximum_saves then s.save_history.drop 1
          else s.save_history) = [] := by
        rw [hempty]
        split <;> rfl
      refine ⟨_, rollbackLoop_empty_history _ k ?_, rfl⟩
      exact hd
    · have hk0 : k = 0 := by omega
      subst hk0
      exact ⟨_, rfl, rfl⟩

/-- Witness for C3 (amended): three advances from an empty history roll all
the way back to the original generation. -/
theorem c3_advance_then_rollback_witness :
    ((rollbackDemoStart.simulate_generations 3).rollback_generations 3).map
      (fun t => decide (t.generation = rollbackDemoStart.generation)) = some true := by
  obtain ⟨t, ht, hg⟩ :=
    c3_advance_then_rollback rollbackDemoStart 3 (by decide) (Or.inl rfl)
  rw [ht]
  simp [hg]

/-! The step loop builds the next generation from the unmodified current
generation: membership lemmas for the fold. -/

theorem get_alive_neighbors_state_irrel (s : Simulation) (st st2 : CellState)
    (row column : Nat) :
    s.get_alive_neighbors (Cell.mk st row column) =
      s.get_alive_neighbors (Cell.mk st2 row column) := rfl

theorem stepCell_eq (s : Simulation) (g : Finset Cell) (row column : Nat) :
    s.stepCell g row column =
      if Cell.mk CellState.ALIVE row column ∈ s.generation then
        (if ruleNext s row column = true then g
         else g.erase (Cell.mk CellState.ALIVE row column))
      else
        (if ruleNext s row column = true then insert (Cell.mk CellState.ALIVE row column) g
         else g) := by
  by_cases hm : Cell.mk CellState.ALIVE row column ∈ s.generation
  · have hc : s.get_cell row column = Cell.mk CellState.ALIVE row column := by
      unfold Simulation.get_cell
      rw [if_pos hm]
    unfold Simulation.stepCell ruleNext
    rw [hc, if_pos hm]
    simp only [Cell.is_alive, beq_self_eq_true, if_true, decide_eq_true_eq]
    by_cases hn : 2 ≤ s.get_alive_neighbors (Cell.mk CellState.ALIVE row column) ∧
        s.get_alive_neighbors (Cell.mk CellState.ALIVE row column) ≤ 3
    · rw [if_pos hn, if_neg (by omega)]
    · rw [if_neg hn, if_pos (by omega)]
  · have hc : s.get_cell row column = Cell.mk CellState.DEAD row column := by
      unfold Simulation.get_cell
      rw [if_neg hm]
    unfold Simulation.stepCell ruleNext
    rw [hc, if_neg hm]
    simp [Cell.is_alive]

theorem stepCell_mem_other (s : Simulation) (g : Finset Cell) (row column : Nat) (c : Cell)
    (h : c ≠ Cell.mk CellState.ALIVE row column) :
    (c ∈ s.stepCell g row column ↔ c ∈ g) := by
  rw [stepCell_eq]
  split_ifs <;> simp [Finset.mem_erase, Finset.mem_insert, h]

theorem cell_ne_of_pair_ne (row column : Nat) (rc : Nat × Nat) (h : rc ≠ (row, column)) :
    Cell.mk CellState.ALIVE row column ≠ Cell.mk CellState.ALIVE rc.1 rc.2 := by
  intro he
  apply h
  cases rc with
  | mk a b =>
    simp only [Cell.mk.injEq] at he
    simp only [Prod.mk.injEq]
    exact ⟨he.2.1.symm, he.2.2.symm⟩

theorem stepCell_mem_self (s : Simulation) (g : Finset Cell) (row column : Nat)
    (hg : (Cell.mk CellState.ALIVE row column ∈ g) ↔
          (Cell.mk CellState.ALIVE row column ∈ s.generation)) :
    (Cell.mk CellState.ALIVE row column ∈ s.stepCell g row column) ↔
      ruleNext s row column = true := by
  rw [stepCell_eq]
  by_cases hm : Cell.mk CellState.ALIVE row column ∈ s.generation <;>
    by_cases hrule : ruleNext s row column = true <;>
      simp [hm, hrule, hg, Finset.mem_erase, Finset.mem_insert]

theorem stepCell_mem_self_rule (s : Simulation) (g : Finset Cell) (row column : Nat)
    (hg : (Cell.mk CellState.ALIVE row column ∈ g) ↔ ruleNext s row column = true) :
    (Cell.mk CellState.ALIVE row column ∈ s.stepCell g row column) ↔
      ruleNext s row column = true := by
  rw [stepCell_eq]
  by_cases hm : Cell.mk CellState.ALIVE row column ∈ s.generation <;>
    by_cases hrule : ruleNext s row column = true <;>
      simp [hm, hrule, hg, Finset.mem_erase, Finset.mem_insert]

theorem stepFold_mem_rule (s : Simulation) (row column : Nat) (l : List (Nat × Nat))
    (g : Finset Cell)
    (hg : (Cell.mk CellState.ALIVE row column ∈ g) ↔ ruleNext s row column = true) :
    (Cell.mk CellState.ALIVE row column ∈
        l.foldl (fun acc rc => s.stepCell acc rc.1 rc.2) g) ↔
      ruleNext s row column = true := by
  induction l generalizing g with
  | nil => exact hg
  | cons rc l ih =>
    rw [List.foldl_cons]
    apply ih
    by_cases hrc : rc = (row, column)
    · subst hrc
      exact stepCell_mem_self_rule s g row column hg
    · rw [stepCell_mem_other s g rc.1 rc.2 _ (cell_ne_of_pair_ne row column rc hrc)]
      exact hg

theorem stepFold_mem_main (s : Simulation) (row column : Nat) (l : List (Nat × Nat))
    (g : Finset Cell) (hl : (row, column) ∈ l)
    (hg : (Cell.mk CellState.ALIVE row column ∈ g) ↔
          (Cell.mk CellState.ALIVE row column ∈ s.generation)) :
    (Cell.mk CellState.ALIVE row column ∈
        l.foldl (fun acc rc => s.stepCell acc rc.1 rc.2) g) ↔
      ruleNext s row column = true := by
  induction l generalizing g with
  | nil => cases hl
  | cons rc l ih =>
    rw [List.foldl_cons]
    by_cases hrc : rc = (row, column)
    · subst hrc
      exact stepFold_mem_rule s row column l _ (stepCell_mem_self s g row column hg)
    · have hl2 : (row, column) ∈ l := by
        rcases List.mem_cons.mp hl with h1 | h1
        · exact absurd h1.symm hrc
        · exact h1
      apply ih _ hl2
      rw [stepCell_mem_other s g rc.1 rc.2 _ (cell_ne_of_pair_ne row column rc hrc)]
      exact hg

theorem mem_gridCells (rows columns row column : Nat) :
    ((row, column) ∈ gridCells rows columns) ↔ row < rows ∧ column < columns := by
  simp [gridCells, List.mem_flatMap, List.mem_map, List.mem_range, Prod.mk.injEq]

theorem stepGeneration_mem (s : Simulation) (row column : Nat) (hr : row < s.rows)
    (hc : column < s.columns) :
    (Cell.mk CellState.ALIVE row column ∈ s.stepGeneration) ↔
      ruleNext s row column = true := by
  unfold Simulation.stepGeneration
  exact stepFold_mem_main s row column _ _
    ((mem_gridCells s.rows s.columns row column).mpr ⟨hr, hc⟩) Iff.rfl

/-! Claim C1. -/

/-- **C1.** One forward step of `simulate_generations` applies the Game of
Life rule to every grid cell: after the step, the cell at `(row, column)`
is alive iff `ruleNext` holds for the pre-step state — a living cell
survives exactly with 2 or 3 alive neighbors, a dead cell is born exactly
with 3.  `ruleNext` reads only the pre-step state `s`, so the result is
determined by the unmodified current generation and is independent of the
cell visiting order (the fold lemmas above show any list visiting the cell
yields the same membership). -/
theorem c1_step_applies_rule (s : Simulation) (row column : Nat)
    (hr : row < s.rows) (hc : column < s.columns) :
    ((s.simulate_generations 1).get_cell row column).is_alive = ruleNext s row column := by
  rw [get_cell_is_alive, (simulate_one_generation s).1]
  calc decide (Cell.mk CellState.ALIVE row column ∈ s.stepGeneration)
      = decide (ruleNext s row column = true) :=
        decide_eq_decide.mpr (stepGeneration_mem s row column hr hc)
    _ = ruleNext s row column := by cases ruleNext s row column <;> simp

/-- Witness for C1 on the blinker: cell (1,2) of the 5×5 blinker. -/
theorem c1_step_applies_rule_witness :
    (1 < blinkerSim.rows ∧ 2 < blinkerSim.columns) ∧
    ((blinkerSim.simulate_generations 1).get_cell 1 2).is_alive = ruleNext blinkerSim 1 2 :=
  ⟨by decide, c1_step_applies_rule blinkerSim 1 2 (by decide) (by decide)⟩

/-! Claim C2: the neighbor count against the spec's per-axis resolution. -/

theorem emod_neg_one (len : Nat) (h0 : 0 < len) :
    (-1 : Int) % (len : Int) = (len : Int) - 1 := by
  have h1 : ((-1 : Int) + (len : Int) * 1) % (len : Int) = (-1 : Int) % (len : Int) :=
    Int.add_mul_emod_self_left (-1) (len : Int) 1
  have h3 : (-1 : Int) + (len : Int) * 1 = (len : Int) - 1 := by ring
  rw [h3] at h1
  exact h1.symm.trans (Int.emod_eq_of_lt (by omega) (by omega))

theorem resolveAxis_sub_one (w : Bool) (len origin : Nat) (h0 : 0 < len) (h : origin < len) :
    resolveAxis w len ((origin : Int) + -1) =
      if origin = 0 ∧ w = false then none
      else some (if origin = 0 ∧ w = true then len - 1 else origin - 1) := by
  cases w <;> by_cases ho : origin = 0
  · subst ho
    dsimp only [resolveAxis]
    rw [if_neg Bool.false_ne_true,
      if_neg (show ¬(0 ≤ ((0:Nat):Int) + -1 ∧ ((0:Nat):Int) + -1 < (len:Int)) by omega),
      if_pos ⟨rfl, rfl⟩]
  · dsimp only [resolveAxis]
    rw [if_neg Bool.false_ne_true,
      if_pos (show 0 ≤ (origin:Int) + -1 ∧ (origin:Int) + -1 < (len:Int) by omega),
      if_neg (by simp [ho]), if_neg (by simp [ho])]
    congr 1
    omega
  · subst ho
    dsimp only [resolveAxis]
    rw [if_pos rfl]
    have he : (((0 : Nat) : Int) + -1) = -1 := by norm_num
    rw [he, emod_neg_one len h0, if_neg (by simp), if_pos ⟨rfl, rfl⟩]
    congr 1
    omega
  · dsimp only [resolveAxis]
    rw [if_pos rfl, Int.emod_eq_of_lt (by omega) (by omega),
      if_neg (by simp [ho]), if_neg (by simp [ho])]
    congr 1
    omega

theorem resolveAxis_add_one (w : Bool) (len origin : Nat) (h0 : 0 < len) (h : origin < len) :
    resolveAxis w len ((origin : Int) + 1) =
      if origin = len - 1 ∧ w = false then none
      else some (if origin = len - 1 ∧ w = true then 0 else origin + 1) := by
  cases w <;> by_cases ho : origin = len - 1
  · dsimp only [resolveAxis]
    rw [if_neg Bool.false_ne_true,
      if_neg (show ¬(0 ≤ (origin:Int) + 1 ∧ (origin:Int) + 1 < (len:Int)) by omega),
      if_pos ⟨ho, rfl⟩]
  · dsimp only [resolveAxis]
    rw [if_neg Bool.false_ne_true,
      if_pos (show 0 ≤ (origin:Int) + 1 ∧ (origin:Int) + 1 < (len:Int) by omega),
      if_neg (by simp [ho]), if_neg (by simp [ho])]
    congr 1
  · dsimp only [resolveAxis]
    have he : ((origin : Int) + 1) % (len : Int) = 0 := by
      have h2 : ((origin : Int) + 1) = (len : Int) := by omega
      rw [h2]
      exact Int.emod_self
    rw [if_pos rfl, he, if_neg (by simp), if_pos ⟨ho, rfl⟩]
    rfl
  · dsimp only [resolveAxis]
    rw [if_pos rfl, Int.emod_eq_of_lt (by omega) (by omega),
      if_neg (by simp [ho]), if_neg (by simp [ho])]
    congr 1

theorem resolveAxis_add_zero (w : Bool) (len origin : Nat) (_h0 : 0 < len) (h : origin < len) :
    resolveAxis w len ((origin : Int) + 0) = some origin := by
  cases w
  · dsimp only [resolveAxis]
    rw [if_neg Bool.false_ne_true,
      if_pos (show 0 ≤ (origin:Int) + 0 ∧ (origin:Int) + 0 < (len:Int) by omega)]
    congr 1
  · dsimp only [resolveAxis]
    rw [if_pos rfl, Int.emod_eq_of_lt (by omega) (by omega)]
    congr 1


theorem top_left_eq_spec (s : Simulation) (row column : Nat) (h0r : 0 < s.rows)
    (h0c : 0 < s.columns) (hr : row < s.rows) (hc : column < s.columns) :
    s.top_left_is_alive row column =
      spec_resolve_alive s ((row : Int) + -1) ((column : Int) + -1) := by
  unfold spec_resolve_alive Simulation.top_left_is_alive
  rw [spec_wraps_vertically_eq_code, spec_wraps_horizontally_eq_code,
    bounded_vertically_not_wrapping, bounded_horizontally_not_wrapping,
    resolveAxis_sub_one _ _ _ h0r hr, resolveAxis_sub_one _ _ _ h0c hc]
  by_cases hwv : wrapping_vertically s.surface_type <;>
    by_cases hwh : wrapping_horizontally s.surface_type <;>
      by_cases hr0 : row = 0 <;> by_cases hc0 : column = 0 <;>
        simp [hwv, hwh, hr0, hc0, get_cell_is_alive]

theorem top_center_eq_spec (s : Simulation) (row column : Nat) (h0r : 0 < s.rows)
    (h0c : 0 < s.columns) (hr : row < s.rows) (hc : column < s.columns) :
    s.top_center_is_alive row column =
      spec_resolve_alive s ((row : Int) + -1) ((column : Int) + 0) := by
  unfold spec_resolve_alive Simulation.top_center_is_alive
  rw [spec_wraps_vertically_eq_code, spec_wraps_horizontally_eq_code,
    bounded_vertically_not_wrapping,
    resolveAxis_sub_one _ _ _ h0r hr, resolveAxis_add_zero _ _ _ h0c hc]
  by_cases hwv : wrapping_vertically s.surface_type <;>
    by_cases hr0 : row = 0 <;>
      simp [hwv, hr0, get_cell_is_alive]

theorem top_right_eq_spec (s : Simulation) (row column : Nat) (h0r : 0 < s.rows)
    (h0c : 0 < s.columns) (hr : row < s.rows) (hc : column < s.columns) :
    s.top_right_is_alive row column =
      spec_resolve_alive s ((row : Int) + -1) ((column : Int) + 1) := by
  unfold spec_resolve_alive Simulation.top_right_is_alive
  rw [spec_wraps_vertically_eq_code, spec_wraps_horizontally_eq_code,
    bounded_vertically_not_wrapping, bounded_horizontally_not_wrapping,
    resolveAxis_sub_one _ _ _ h0r hr, resolveAxis_add_one _ _ _ h0c hc]
  by_cases hwv : wrapping_vertically s.surface_type <;>
    by_cases hwh : wrapping_horizontally s.surface_type <;>
      by_cases hr0 : row = 0 <;> by_cases hc1 : column = s.columns - 1 <;>
        simp [hwv, hwh, hr0, hc1, get_cell_is_alive]

theorem middle_left_eq_spec (s : Simulation) (row column : Nat) (h0r : 0 < s.rows)
    (h0c : 0 < s.columns) (hr : row < s.rows) (hc : column < s.columns) :
    s.middle_left_is_alive row column =
      spec_resolve_alive s ((row : Int) + 0) ((column : Int) + -1) := by
  unfold spec_resolve_alive Simulation.middle_left_is_alive
  rw [spec_wraps_vertically_eq_code, spec_wraps_horizontally_eq_code,
    bounded_horizontally_not_wrapping,
    resolveAxis_add_zero _ _ _ h0r hr, resolveAxis_sub_one _ _ _ h0c hc]
  by_cases hwh : wrapping_horizontally s.surface_type <;>
    by_cases hc0 : column = 0 <;>
      simp [hwh, hc0, get_cell_is_alive]

theorem middle_right_eq_spec (s : Simulation) (row column : Nat) (h0r : 0 < s.rows)
    (h0c : 0 < s.columns) (hr : row < s.rows) (hc : column < s.columns) :
    s.middle_right_is_alive row column =
      spec_resolve_alive s ((row : Int) + 0) ((column : Int) + 1) := by
  unfold spec_resolve_alive Simulation.middle_right_is_alive
  rw [spec_wraps_vertically_eq_code, spec_wraps_horizontally_eq_code,
    bounded_horizontally_not_wrapping,
    resolveAxis_add_zero _ _ _ h0r hr, resolveAxis_add_one _ _ _ h0c hc]
  by_cases hwh : wrapping_horizontally s.surface_type <;>
    by_cases hc1 : column = s.columns - 1 <;>
      simp [hwh, hc1, get_cell_is_alive]

theorem bottom_left_eq_spec (s : Simulation) (row column : Nat) (h0r : 0 < s.rows)
    (h0c : 0 < s.columns) (hr : row < s.rows) (hc : column < s.columns) :
    s.bottom_left_is_alive row column =
      spec_resolve_alive s ((row : Int) + 1) ((column : Int) + -1) := by
  unfold spec_resolve_alive Simulation.bottom_left_is_alive
  rw [spec_wraps_vertically_eq_code, spec_wraps_horizontally_eq_code,
    bounded_vertically_not_wrapping, bounded_horizontally_not_wrapping,
    resolveAxis_add_one _ _ _ h0r hr, resolveAxis_sub_one _ _ _ h0c hc]
  by_cases hwv : wrapping_vertically s.surface_type <;>
    by_cases hwh : wrapping_horizontally s.surface_type <;>
      by_cases hr1 : row = s.rows - 1 <;> by_cases hc0 : column = 0 <;>
        simp [hwv, hwh, hr1, hc0, get_cell_is_alive]

theorem bottom_center_eq_spec (s : Simulation) (row column : Nat) (h0r : 0 < s.rows)
    (h0c : 0 < s.columns) (hr : row < s.rows) (hc : column < s.columns) :
    s.bottom_center_is_alive row column =
      spec_resolve_alive s ((row : Int) + 1) ((column : Int) + 0) := by
  unfold spec_resolve_alive Simulation.bottom_center_is_alive
  rw [spec_wraps_vertically_eq_code, spec_wraps_horizontally_eq_code,
    bounded_vertically_not_wrapping,
    resolveAxis_add_one _ _ _ h0r hr, resolveAxis_add_zero _ _ _ h0c hc]
  by_cases hwv : wrapping_vertically s.surface_type <;>
    by_cases hr1 : row = s.rows - 1 <;>
      simp [hwv, hr1, get_cell_is_alive]

theorem bottom_right_eq_spec (s : Simulation) (row column : Nat) (h0r : 0 < s.rows)
    (h0c : 0 < s.columns) (hr : row < s.rows) (hc : column < s.columns) :
    s.bottom_right_is_alive row column =
      spec_resolve_alive s ((row : Int) + 1) ((column : Int) + 1) := by
  unfold spec_resolve_alive Simulation.bottom_right_is_alive
  rw [spec_wraps_vertically_eq_code, spec_wraps_horizontally_eq_code,
    bounded_vertically_not_wrapping, bounded_horizontally_not_wrapping,
    resolveAxis_add_one _ _ _ h0r hr, resolveAxis_add_one _ _ _ h0c hc]
  by_cases hwv : wrapping_vertically s.surface_type <;>
    by_cases hwh : wrapping_horizontally s.surface_type <;>
      by_cases hr1 : row = s.rows - 1 <;> by_cases hc1 : column = s.columns - 1 <;>
        simp [hwv, hwh, hr1, hc1, get_cell_is_alive]

set_option maxRecDepth 4000 in
/-- **C2.** For positive dimensions and an in-bounds cell,
`get_alive_neighbors` returns a count in `[0, 8]` equal to the number of the
8 Moore-neighborhood offsets whose coordinate, after applying the surface's
wrap flags (Ball wraps both axes, HorizontalLoop only horizontally,
VerticalLoop only vertically, Rectangle neither) with true mathematical
modulo on wrapping axes and treating out-of-range coordinates on bounded
axes as dead, is present in the alive-cell set. -/
theorem c2_alive_neighbors_spec (s : Simulation) (st : CellState) (row column : Nat)
    (h0r : 0 < s.rows) (h0c : 0 < s.columns) (hr : row < s.rows) (hc : column < s.columns) :
    s.get_alive_neighbors (Cell.mk st row column) = spec_count_alive_neighbors s row column ∧
    s.get_alive_neighbors (Cell.mk st row column) ≤ 8 := by
  have hcount : s.get_alive_neighbors (Cell.mk st row column) =
      spec_count_alive_neighbors s row column := by
    unfold Simulation.get_alive_neighbors spec_count_alive_neighbors mooreOffsets
    simp only [List.countP_cons, List.countP_nil]
    dsimp only
    rw [top_left_eq_spec s row column h0r h0c hr hc,
      top_center_eq_spec s row column h0r h0c hr hc,
      top_right_eq_spec s row column h0r h0c hr hc,
      middle_left_eq_spec s row column h0r h0c hr hc,
      middle_right_eq_spec s row column h0r h0c hr hc,
      bottom_left_eq_spec s row column h0r h0c hr hc,
      bottom_center_eq_spec s row column h0r h0c hr hc,
      bottom_right_eq_spec s row column h0r h0c hr hc]
    generalize spec_resolve_alive s ((row:Int) + -1) ((column:Int) + -1) = b1
    generalize spec_resolve_alive s ((row:Int) + -1) ((column:Int) + 0) = b2
    generalize spec_resolve_alive s ((row:Int) + -1) ((column:Int) + 1) = b3
    generalize spec_resolve_alive s ((row:Int) + 0) ((column:Int) + -1) = b4
    generalize spec_resolve_alive s ((row:Int) + 0) ((column:Int) + 1) = b5
    generalize spec_resolve_alive s ((row:Int) + 1) ((column:Int) + -1) = b6
    generalize spec_resolve_alive s ((row:Int) + 1) ((column:Int) + 0) = b7
    generalize spec_resolve_alive s ((row:Int) + 1) ((column:Int) + 1) = b8
    cases b1 <;> cases b2 <;> cases b3 <;> cases b4 <;> cases b5 <;> cases b6 <;>
      cases b7 <;> cases b8 <;> rfl
  refine ⟨hcount, ?_⟩
  rw [hcount]
  unfold spec_count_alive_neighbors
  exact le_trans (List.countP_le_length _) (by rfl)

/-- Witness for C2 at the corner cell of a 3×3 Ball simulation. -/
theorem c2_alive_neighbors_spec_witness :
    (0 < wrapSample.rows ∧ 0 < wrapSample.columns) ∧
    wrapSample.get_alive_neighbors (Cell.mk CellState.ALIVE 0 0) =
      spec_count_alive_neighbors wrapSample 0 0 ∧
    wrapSample.get_alive_neighbors (Cell.mk CellState.ALIVE 0 0) ≤ 8 :=
  ⟨⟨by decide, by decide⟩,
   (c2_alive_neighbors_spec wrapSample CellState.ALIVE 0 0 (by decide) (by decide) (by decide)
      (by decide)).1,
   (c2_alive_neighbors_spec wrapSample CellState.ALIVE 0 0 (by decide) (by decide) (by decide)
      (by decide)).2⟩

/-! Claim C8: serialization round trip. -/

theorem generationFromChars_ok_mem (columns : Nat) (l : List Char) (i : Nat)
    (acc out : Finset Cell) (h : generationFromChars columns l i acc = Except.ok out)
    (c : Cell) :
    c ∈ out ↔ (c ∈ acc ∨ ∃ j, j < l.length ∧ l.getD j DEAD_CHAR = ALIVE_CHAR ∧
      c = Cell.mk CellState.ALIVE (((i + j) % 65536) / columns)
        (((i + j) % 65536) % columns)) := by
  induction l generalizing i acc with
  | nil =>
    simp only [generationFromChars, Except.ok.injEq] at h
    subst h
    simp
  | cons value rest ih =>
    simp only [generationFromChars] at h
    by_cases hv : value = ALIVE_CHAR
    · rw [if_pos hv] at h
      rw [ih _ _ h, Finset.mem_insert]
      constructor
      · rintro ((hc | hc) | ⟨j, hj, hch, hc⟩)
        · refine Or.inr ⟨0, by simp, by simp [hv], ?_⟩
          simpa using hc
        · exact Or.inl hc
        · refine Or.inr ⟨j + 1, by simpa using hj, by simpa using hch, ?_⟩
          have he : i + 1 + j = i + (j + 1) := by omega
          rw [he] at hc
          exact hc
      · rintro (hc | ⟨j, hj, hch, hc⟩)
        · exact Or.inl (Or.inr hc)
        · cases j with
          | zero =>
            refine Or.inl (Or.inl ?_)
            simpa using hc
          | succ j =>
            refine Or.inr ⟨j, by simpa using hj, by simpa using hch, ?_⟩
            have he : i + 1 + j = i + (j + 1) := by omega
            rw [he]
            exact hc
    · rw [if_neg hv] at h
      by_cases hd : value = DEAD_CHAR
      · rw [if_pos hd] at h
        rw [ih _ _ h]
        constructor
        · rintro (hc | ⟨j, hj, hch, hc⟩)
          · exact Or.inl hc
          · refine Or.inr ⟨j + 1, by simpa using hj, by simpa using hch, ?_⟩
            have he : i + 1 + j = i + (j + 1) := by omega
            rw [he] at hc
            exact hc
        · rintro (hc | ⟨j, hj, hch, hc⟩)
          · exact Or.inl hc
          · cases j with
            | zero =>
              simp only [List.getD_cons_zero] at hch
              exact absurd hch hv
            | succ j =>
              refine Or.inr ⟨j, by simpa using hj, by simpa using hch, ?_⟩
              have he : i + 1 + j = i + (j + 1) := by omega
              rw [he]
              exact hc
      · rw [if_neg hd] at h
        cases h

theorem generation_from_string_mem (seed : List Char) (columns : Nat) (out : Finset Cell)
    (hlen : seed.length ≤ 65536)
    (h : generation_from_string seed columns = Except.ok out) (c : Cell) :
    c ∈ out ↔ ∃ j, j < seed.length ∧ seed.getD j DEAD_CHAR = ALIVE_CHAR ∧
      c = Cell.mk CellState.ALIVE (j / columns) (j % columns) := by
  rw [generationFromChars_ok_mem columns seed 0 ∅ out h c]
  simp only [Finset.not_mem_empty, false_or, Nat.zero_add]
  constructor <;> rintro ⟨j, hj, hch, hc⟩
  · refine ⟨j, hj, hch, ?_⟩
    rw [show j % 65536 = j from Nat.mod_eq_of_lt (by omega)] at hc
    exact hc
  · refine ⟨j, hj, hch, ?_⟩
    rw [show j % 65536 = j from Nat.mod_eq_of_lt (by omega)]
    exact hc

theorem generationFromChars_ok_of_valid (columns : Nat) (l : List Char) (i : Nat)
    (acc : Finset Cell) (hv : ∀ ch ∈ l, ch = ALIVE_CHAR ∨ ch = DEAD_CHAR) :
    ∃ out, generationFromChars columns l i acc = Except.ok out := by
  induction l generalizing i acc with
  | nil => exact ⟨acc, rfl⟩
  | cons value rest ih =>
    have hrest : ∀ ch ∈ rest, ch = ALIVE_CHAR ∨ ch = DEAD_CHAR :=
      fun ch hch => hv ch (by simp [hch])
    rcases hv value (by simp) with hch | hch
    · simp only [generationFromChars, if_pos hch]
      exact ih _ _ hrest
    · by_cases ha : value = ALIVE_CHAR
      · simp only [generationFromChars, if_pos ha]
        exact ih _ _ hrest
      · simp only [generationFromChars, if_neg ha, if_pos hch]
        exact ih _ _ hrest

theorem string_from_generation_length (g : Finset Cell) (rows columns : Nat) :
    (string_from_generation g rows columns).length = rows * columns := by
  simp [string_from_generation]

theorem string_from_generation_getD (g : Finset Cell) (rows columns j : Nat)
    (hj : j < rows * columns) :
    (string_from_generation g rows columns).getD j DEAD_CHAR =
      if j ∈ g.image (fun cell => cell.row * columns + cell.column) then ALIVE_CHAR
      else DEAD_CHAR := by
  unfold string_from_generation
  rw [List.getD_eq_getElem?_getD, List.getElem?_map, List.getElem?_range hj]
  rfl

theorem string_from_generation_chars (g : Finset Cell) (rows columns : Nat) :
    ∀ ch ∈ string_from_generation g rows columns, ch = ALIVE_CHAR ∨ ch = DEAD_CHAR := by
  intro ch hch
  unfold string_from_generation at hch
  rw [List.mem_map] at hch
  obtain ⟨i, -, hi⟩ := hch
  rw [← hi]
  split
  · exact Or.inl rfl
  · exact Or.inr rfl

theorem cell_index_lt (r c rows columns : Nat) (hr : r < rows) (hc : c < columns) :
    r * columns + c < rows * columns := by
  calc r * columns + c < r * columns + columns := by omega
    _ = (r + 1) * columns := by ring
    _ ≤ rows * columns := Nat.mul_le_mul_right _ (by omega)

theorem cell_index_div_mod (r c columns : Nat) (h0 : 0 < columns) (hc : c < columns) :
    (r * columns + c) / columns = r ∧ (r * columns + c) % columns = c := by
  have he : r * columns + c = c + columns * r := by ring
  rw [he]
  constructor
  · rw [Nat.add_mul_div_left _ _ h0, Nat.div_eq_of_lt hc]
    omega
  · rw [Nat.add_mul_mod_self_left, Nat.mod_eq_of_lt hc]

theorem getD_of_lt (l : List Char) (n : Nat) (h : n < l.length) :
    l.getD n DEAD_CHAR = l[n] := by
  rw [List.getD_eq_getElem?_getD, List.getElem?_eq_getElem h]
  rfl

theorem index_div_mod (n columns : Nat) : n / columns * columns + n % columns = n := by
  rw [Nat.mul_comm]
  exact Nat.div_add_mod n columns

/-- **C8.** Round-trip laws between `string_from_generation` and
`generation_from_string`: encoding an in-bounds generation and decoding the
result restores the identical alive-cell set, and decoding a well-formed
seed of length `rows * columns` and re-encoding restores the original
string.  `rows * columns ≤ 65536` keeps the `i as u16` index cast of the
decoder faithful (the `u16` grid bound). -/
theorem c8_round_trip (g : Finset Cell) (rows columns : Nat) (seed : List Char)
    (h0c : 0 < columns) (hsize : rows * columns ≤ 65536)
    (hg : ∀ c ∈ g, c.state = CellState.ALIVE ∧ c.row < rows ∧ c.column < columns)
    (hlen : seed.length = rows * columns)
    (hchars : ∀ ch ∈ seed, ch = ALIVE_CHAR ∨ ch = DEAD_CHAR) :
    generation_from_string (string_from_generation g rows columns) columns = Except.ok g ∧
    (∀ g2, generation_from_string seed columns = Except.ok g2 →
      string_from_generation g2 rows columns = seed) := by
  constructor
  · obtain ⟨out, hout⟩ := generationFromChars_ok_of_valid columns
      (string_from_generation g rows columns) 0 ∅ (string_from_generation_chars g rows columns)
    rw [show generation_from_string (string_from_generation g rows columns) columns =
        generationFromChars columns (string_from_generation g rows columns) 0 ∅ from rfl, hout]
    congr 1
    apply Finset.ext
    intro c
    rw [generation_from_string_mem _ columns out
      (by rw [string_from_generation_length]; exact hsize) hout c]
    constructor
    · rintro ⟨j, hj, hch, hc⟩
      rw [string_from_generation_length] at hj
      rw [string_from_generation_getD g rows columns j hj] at hch
      by_cases hmem : j ∈ g.image (fun cell => cell.row * columns + cell.column)
      · rw [Finset.mem_image] at hmem
        obtain ⟨c2, hc2, hidx⟩ := hmem
        obtain ⟨hst, hr2, hcol2⟩ := hg c2 hc2
        obtain ⟨hdiv, hmod⟩ := cell_index_div_mod c2.row c2.column columns h0c hcol2
        rw [← hidx, hdiv, hmod] at hc
        have : c = c2 := by
          rw [hc]
          cases c2 with
          | mk st r col => simp_all
        rw [this]
        exact hc2
      · rw [if_neg hmem] at hch
        exact absurd hch (by decide)
    · intro hc
      obtain ⟨hst, hr2, hcol2⟩ := hg c hc
      refine ⟨c.row * columns + c.column, ?_, ?_, ?_⟩
      · rw [string_from_generation_length]
        exact cell_index_lt _ _ _ _ hr2 hcol2
      · rw [string_from_generation_getD g rows columns _
          (cell_index_lt _ _ _ _ hr2 hcol2), if_pos]
        rw [Finset.mem_image]
        exact ⟨c, hc, rfl⟩
      · obtain ⟨hdiv, hmod⟩ := cell_index_div_mod c.row c.column columns h0c hcol2
        rw [hdiv, hmod]
        cases c with
        | mk st r col => simp_all
  · intro g2 hg2
    have hmem := generation_from_string_mem seed columns g2 (by omega) hg2
    apply List.ext_getElem
    · rw [string_from_generation_length, hlen]
    · intro n h1 h2
      rw [← getD_of_lt _ n h1, ← getD_of_lt _ n h2]
      have hn : n < rows * columns := by
        rw [string_from_generation_length] at h1
        exact h1
      rw [string_from_generation_getD g2 rows columns n hn]
      have hiff : (n ∈ g2.image (fun cell => cell.row * columns + cell.column)) ↔
          seed.getD n DEAD_CHAR = ALIVE_CHAR := by
        constructor
        · intro hmem2
          rw [Finset.mem_image] at hmem2
          obtain ⟨c2, hc2, hidx⟩ := hmem2
          rw [hmem c2] at hc2
          obtain ⟨j, hj, hch, hc⟩ := hc2
          rw [hc] at hidx
          simp only at hidx
          rw [index_div_mod j columns] at hidx
          rw [← hidx]
          exact hch
        · intro hch
          rw [Finset.mem_image]
          refine ⟨Cell.mk CellState.ALIVE (n / columns) (n % columns), ?_, ?_⟩
          · rw [hmem]
            exact ⟨n, by omega, hch, rfl⟩
          · exact index_div_mod n columns
      by_cases hmem2 : n ∈ g2.image (fun cell => cell.row * columns + cell.column)
      · rw [if_pos hmem2]
        exact (hiff.mp hmem2).symm
      · rw [if_neg hmem2]
        have hmem3 : seed.getD n DEAD_CHAR ∈ seed := by
          rw [getD_of_lt _ n h2]
          exact List.getElem_mem h2
        rcases hchars _ hmem3 with ha | hd
        · exact absurd (hiff.mpr ha) hmem2
        · exact hd.symm

/-- Witness for C8 on a 2×2 grid with two alive cells. -/
theorem c8_round_trip_witness :
    generation_from_string
        (string_from_generation
          (insert (Cell.mk CellState.ALIVE 1 1)
            (insert (Cell.mk CellState.ALIVE 0 1) (∅ : Finset Cell))) 2 2) 2 =
      Except.ok (insert (Cell.mk CellState.ALIVE 1 1)
        (insert (Cell.mk CellState.ALIVE 0 1) (∅ : Finset Cell))) ∧
    string_from_generation
        (insert (Cell.mk CellState.ALIVE 1 1)
          (insert (Cell.mk CellState.ALIVE 0 1) (∅ : Finset Cell))) 2 2 =
      ['-', '*', '-', '*'] := by
  have h := c8_round_trip
    (insert (Cell.mk CellState.ALIVE 1 1) (insert (Cell.mk CellState.ALIVE 0 1) (∅ : Finset Cell)))
    2 2 ['-', '*', '-', '*'] (by decide) (by decide) (by decide) (by decide) (by decide)
  exact ⟨h.1, h.2 _ rfl⟩

/-! Claim C6: the in-bounds invariant. -/

/-- **C6 counterexample.** `reset_to` does not validate the new seed's
length against `rows * columns`: on a 1×1 simulation satisfying the
invariant, `reset_to` with the length-2 seed `"-*"` succeeds and places the
cell (1, 0) — row 1 on a 1-row grid — into the generation. -/
theorem c6_counterexample :
    SimInv stillStart ∧
    (stillStart.reset_to ['-', '*']).map
      (fun t => decide (Cell.mk CellState.ALIVE 1 0 ∈ t.generation ∧ t.rows = 1)) =
      some true := by
  constructor
  · constructor
    · intro c hc
      exact absurd hc (Finset.not_mem_empty c)
    · intro g hg
      exact absurd hg (List.not_mem_nil g)
  · decide

theorem stepFold_mem_source (s : Simulation) (l : List (Nat × Nat)) (g : Finset Cell) (c : Cell)
    (hc : c ∈ l.foldl (fun acc rc => s.stepCell acc rc.1 rc.2) g) :
    c ∈ g ∨ ∃ rc, rc ∈ l ∧ c = Cell.mk CellState.ALIVE rc.1 rc.2 := by
  induction l generalizing g with
  | nil => exact Or.inl hc
  | cons rc l ih =>
    rw [List.foldl_cons] at hc
    rcases ih _ hc with h | ⟨rc2, hrc2, hc2⟩
    · rw [stepCell_eq] at h
      split_ifs at h with h1 h2 h3
      · exact Or.inl h
      · exact Or.inl (Finset.mem_of_mem_erase h)
      · rcases Finset.mem_insert.mp h with h4 | h4
        · exact Or.inr ⟨rc, by simp, h4⟩
        · exact Or.inl h4
      · exact Or.inl h
    · exact Or.inr ⟨rc2, by simp [hrc2], hc2⟩

theorem stepGeneration_inBounds (s : Simulation)
    (h : InBounds s.rows s.columns s.generation) :
    InBounds s.rows s.columns s.stepGeneration := by
  intro c hc
  unfold Simulation.stepGeneration at hc
  rcases stepFold_mem_source s _ _ c hc with h1 | ⟨rc, hrc, hcell⟩
  · exact h c h1
  · obtain ⟨a, b⟩ := rc
    have hb := (mem_gridCells s.rows s.columns a b).mp hrc
    rw [hcell]
    exact ⟨hb.1, hb.2⟩

theorem simInv_save_generation (s : Simulation) (h : SimInv s) : SimInv s.save_generation := by
  obtain ⟨hg, hh⟩ := h
  refine ⟨hg, ?_⟩
  intro g hgmem
  unfold Simulation.save_generation at hgmem
  simp only [List.mem_append] at hgmem
  rcases hgmem with h1 | h1
  · have h2 : g ∈ s.save_history := by
      split at h1
      · exact List.Sublist.mem h1 (List.drop_sublist 1 s.save_history)
      · exact h1
    exact hh g h2
  · rw [List.mem_singleton] at h1
    rw [h1]
    exact hg

theorem simInv_simulateLoop (s : Simulation) (k : Nat) (h : SimInv s) :
    SimInv (s.simulateLoop k) := by
  induction k generalizing s with
  | zero => exact h
  | succ k ih =>
    rw [Simulation.simulateLoop]
    apply ih
    exact ⟨stepGeneration_inBounds s h.1, h.2⟩

theorem simInv_simulate_generations (s : Simulation) (n : Nat) (h : SimInv s) :
    SimInv (s.simulate_generations n) := by
  unfold Simulation.simulate_generations
  split
  · exact h
  · exact simInv_simulateLoop _ n (simInv_save_generation s h)

theorem simInv_rollbackLoop (s : Simulation) (k : Nat) (t : Simulation) (h : SimInv s)
    (ht : s.rollbackLoop k = some t) : SimInv t := by
  induction k generalizing s with
  | zero =>
    rw [Simulation.rollbackLoop] at ht
    cases ht
    exact h
  | succ k ih =>
    rw [Simulation.rollbackLoop] at ht
    cases hlast : s.save_history.getLast? with
    | none =>
      rw [hlast] at ht
      dsimp only at ht
      cases ht
      exact h
    | some prev =>
      rw [hlast] at ht
      dsimp only at ht
      by_cases hi : s.generation_iteration = 0
      · rw [if_pos hi] at ht
        cases ht
      · rw [if_neg hi] at ht
        have hpop : SimInv
            { s with generation := prev, save_history := s.save_history.dropLast,
                     generation_iteration := s.generation_iteration - 1 } := by
          constructor
          · exact h.2 prev (List.mem_of_mem_getLast? hlast)
          · intro g hgmem
            exact h.2 g (List.Sublist.mem hgmem (List.dropLast_sublist s.save_history))
        exact ih _ hpop ht

theorem simInv_rollback_generations (s : Simulation) (n : Nat) (t : Simulation) (h : SimInv s)
    (ht : s.rollback_generations n = some t) : SimInv t := by
  unfold Simulation.rollback_generations at ht
  split at ht
  · cases ht
    exact h
  · exact simInv_rollbackLoop s n t h ht

theorem decode_inBounds (seed : List Char) (rows columns : Nat) (g : Finset Cell)
    (h0c : 0 < columns) (hlen : seed.length ≤ rows * columns) (hsize : rows * columns ≤ 65536)
    (h : generation_from_string seed columns = Except.ok g) :
    InBounds rows columns g := by
  intro c hc
  rw [generation_from_string_mem seed columns g (by omega) h c] at hc
  obtain ⟨j, hj, -, hcell⟩ := hc
  rw [hcell]
  refine ⟨?_, Nat.mod_lt _ h0c⟩
  rw [Nat.div_lt_iff_lt_mul h0c]
  omega

theorem simInv_reset_to (s : Simulation) (seed : List Char) (t : Simulation) (h : SimInv s)
    (h0c : 0 < s.columns) (hlen : seed.length ≤ s.rows * s.columns)
    (hsize : s.rows * s.columns ≤ 65536) (ht : s.reset_to seed = some t) : SimInv t := by
  unfold Simulation.reset_to at ht
  cases hdec : generation_from_string seed s.columns with
  | ok g =>
    rw [hdec] at ht
    dsimp only at ht
    cases ht
    exact ⟨decode_inBounds seed s.rows s.columns g h0c hlen hsize hdec, h.2⟩
  | error e =>
    rw [hdec] at ht
    cases ht

theorem simInv_reset (s : Simulation) (t : Simulation) (h : SimInv s)
    (h0c : 0 < s.columns) (hlen : s.seed.length ≤ s.rows * s.columns)
    (hsize : s.rows * s.columns ≤ 65536) (ht : s.reset = some t) : SimInv t := by
  unfold Simulation.reset at ht
  cases hdec : generation_from_string s.seed s.columns with
  | ok g =>
    rw [hdec] at ht
    dsimp only at ht
    cases ht
    exact ⟨decode_inBounds s.seed s.rows s.columns g h0c hlen hsize hdec, h.2⟩
  | error e =>
    rw [hdec] at ht
    cases ht

theorem simInv_reset_to_rand (s : Simulation) (randomSeed : List Char) (t : Simulation)
    (h : SimInv s) (h0c : 0 < s.columns) (hlen : randomSeed.length ≤ s.rows * s.columns)
    (hsize : s.rows * s.columns ≤ 65536) (ht : s.reset_to_rand randomSeed = some t) :
    SimInv t := by
  unfold Simulation.reset_to_rand at ht
  cases hdec : generation_from_string randomSeed s.columns with
  | ok g =>
    rw [hdec] at ht
    dsimp only at ht
    cases ht
    exact ⟨decode_inBounds randomSeed s.rows s.columns g h0c hlen hsize hdec, h.2⟩
  | error e =>
    rw [hdec] at ht
    cases ht

/-- **C6 (amended).** The in-bounds invariant (every cell of the live
generation and of every saved generation lies inside the `rows × columns`
grid) is preserved by `simulate_generations` and `rollback_generations`
unconditionally, and by `reset_to`, `reset` and `reset_to_rand` provided
the (new) seed length is at most `rows * columns` (with `0 < columns` and
the `u16` bound `rows * columns ≤ 65536`).  `reset_to` performs no length
validation, so without that proviso the invariant fails: see the
counterexample, where a 2-character seed on a 1×1 grid decodes to the
out-of-bounds cell (1,0). -/
theorem c6_bounds_invariant (s : Simulation) (hinv : SimInv s) :
    (∀ n, SimInv (s.simulate_generations n)) ∧
    (∀ n t, s.rollback_generations n = some t → SimInv t) ∧
    (0 < s.columns → s.rows * s.columns ≤ 65536 →
      (∀ seed t, seed.length ≤ s.rows * s.columns → s.reset_to seed = some t → SimInv t) ∧
      (∀ t, s.seed.length ≤ s.rows * s.columns → s.reset = some t → SimInv t) ∧
      (∀ seed t, seed.length ≤ s.rows * s.columns → s.reset_to_rand seed = some t →
        SimInv t)) := by
  refine ⟨fun n => simInv_simulate_generations s n hinv,
    fun n t ht => simInv_rollback_generations s n t hinv ht,
    fun h0c hsize => ⟨fun seed t hlen ht => simInv_reset_to s seed t hinv h0c hlen hsize ht,
      fun t hlen ht => simInv_reset s t hinv h0c hlen hsize ht,
      fun seed t hlen ht => simInv_reset_to_rand s seed t hinv h0c hlen hsize ht⟩⟩

/-- Witness for C6 (amended) on the 1×1 empty simulation. -/
theorem c6_bounds_invariant_witness :
    SimInv (stillStart.simulate_generations 2) ∧
    SimInv (Simulation.mk ['*'] SurfaceType.Rectangle 1 1
      (insert (Cell.mk CellState.ALIVE 0 0) (∅ : Finset Cell)) 0 [] 100) := by
  have hinv : SimInv stillStart := by
    constructor
    · intro c hc
      exact absurd hc (Finset.not_mem_empty c)
    · intro g hg
      exact absurd hg (List.not_mem_nil g)
  refine ⟨(c6_bounds_invariant stillStart hinv).1 2, ?_⟩
  exact ((c6_bounds_invariant stillStart hinv).2.2 (by decide) (by decide)).1 ['*'] _
    (by decide) rfl

end GameOfLife
